import Mathlib

/-!
Shallow embedding of `src/html_snapshot.py`, a CLI tool that renders a local
HTML file to a PNG screenshot through Playwright's synchronous API.

The Python program is a single linear pipeline; we model it as pure functions
over an explicit `World` describing the environment (environment variables,
filesystem existence, platform, and the success/failure of the external
effects: the Playwright install subprocess, `page.goto`, `page.screenshot`).
Each function returns the list of observable effects (`Event`s) it performs,
in order, together with an `Except` outcome mirroring Python's
return-value/exception discipline.

External library functions used by the program (`pathlib.Path.with_suffix`,
`Path.parent`, `Path.as_uri`, `os.environ.get`, `shutil.which`,
`subprocess.run`) are modelled by their documented behaviour; `Path.resolve`
and filesystem queries are world-parameters, since their results depend on
the process's filesystem. Paths are modelled as strings; `as_uri` abstracts
from percent-encoding, which no function of the program inspects.
-/

namespace HtmlSnapshot

/-- Index of the last occurrence of `c` in `l` (Python's `str.rfind`,
restricted to the found case). -/
def lastIdxOf (c : Char) : List Char → Option Nat
  | [] => none
  | x :: xs =>
    match lastIdxOf c xs with
    | some i => some (i + 1)
    | none => if x = c then some (0 : Nat) else none

/-- The final component of a path string (pathlib `Path.name` for the
normalized absolute paths produced by `resolve`). -/
def pathName (p : String) : String :=
  match lastIdxOf '/' p.data with
  | none => p
  | some i => (p.data.drop (i + 1)).asString

/-- Everything up to and including the last `/` of a path string, `""` when
there is none: the directory part that `with_suffix` leaves unchanged. -/
def dirPart (p : String) : String :=
  match lastIdxOf '/' p.data with
  | none => ""
  | some i => (p.data.take (i + 1)).asString

/-- pathlib `Path.parent` for the normalized paths produced by `resolve`. -/
def pathParent (p : String) : String :=
  match lastIdxOf '/' p.data with
  | none => "."
  | some i => if i = 0 then "/" else (p.data.take i).asString

/-- pathlib's `Path.suffix` of a name: the part from the last dot, when that
dot is neither the first nor the last character of the name (Python:
`name[i:] if 0 < i < len(name) - 1 else ''` with `i = name.rfind('.')`). -/
def pySuffix (name : String) : String :=
  match lastIdxOf '.' name.data with
  | none => ""
  | some i =>
    if 0 < i ∧ i + 1 < name.data.length then (name.data.drop i).asString else ""

/-- pathlib's `Path.with_suffix` for a valid non-empty suffix: replaces the
name's final extension (as defined by `pySuffix`), appending the suffix when
the name has no extension. Used by `main` as `html_path.with_suffix(".png")`. -/
def with_suffix (p : String) (suffix : String) : String :=
  let nameChars := (pathName p).data
  let newName : List Char :=
    match lastIdxOf '.' nameChars with
    | some i =>
      if 0 < i ∧ i + 1 < nameChars.length then nameChars.take i ++ suffix.data
      else nameChars ++ suffix.data
    | none => nameChars ++ suffix.data
  dirPart p ++ newName.asString

/-- pathlib's `/` join for the shapes the program builds (`base / "name"`).
`Path("") / "x"` is `Path("x")`. -/
def joinPath (a b : String) : String :=
  if a = "" then b else a ++ "/" ++ b

/-- Model of `Path.as_uri` on a resolved (absolute) path; percent-encoding is
abstracted away, no function of the program inspects the URI. -/
def as_uri (p : String) : String := "file://" ++ p

/-- Python's `int()` truncation toward zero, applied to the exact rational
value (the program computes `int(delay * 1000)`). -/
def pyInt (q : ℚ) : Int := Int.tdiv q.num (q.den : Int)

/-- The environment a run of the program sees, together with the outcomes of
the external effects it may perform. -/
structure World where
  /-- Result of `os.environ.get`: `none` when the variable is absent. -/
  env : String → Option String
  /-- Value of `Path.home()`. -/
  home : String
  /-- Value of `sys.platform`. -/
  platform : String
  /-- Behaviour of `Path.resolve()`: depends on the working directory and filesystem. -/
  resolve : String → String
  /-- Result of `Path.exists()` at the start of the run. -/
  fsExists : String → Bool
  /-- whether `browsers_dir.glob("chromium-*")` yields anything. -/
  hasChromiumGlob : String → Bool
  /-- Whether `shutil.which` finds the playwright CLI. -/
  playwrightOnPath : Bool
  /-- exit status of `subprocess.run(["playwright", "install", "chromium"])`. -/
  installExit : Int
  /-- Whether `page.goto` succeeds (no navigation exception). -/
  gotoOk : Bool
  /-- Whether `page.screenshot` succeeds (no capture exception). -/
  screenshotOk : Bool

/-- Parsed command-line arguments (`parse_args`), with argparse's defaults. -/
structure Args where
  html_path : String
  output : Option String := none
  width : Int := 1400
  height : Int := 900
  delay : ℚ := 0
  no_full_page : Bool := false
  no_auto_install : Bool := false

/-- The observable effects a run performs, in order. -/
inductive Event where
  | stderrLine (msg : String)
  | stdoutLine (msg : String)
  | mkdirParents (path : String)
  | runInstall (cmd : List String)
  | launchBrowser
  | newPage (width height : Int)
  | gotoPage (uri : String) (waitUntil : String)
  | waitTimeout (ms : Int)
  | screenshot (path : String) (fullPage : Bool)
  | pageClose
  | browserClose
deriving DecidableEq

/-- The underlying exception wrapped by a `RuntimeError ... from exc`. -/
inductive PyError where
  | calledProcessError (returncode : Int) (cmd : List String)
deriving DecidableEq

/-- Exceptions a run can propagate. -/
inductive Err where
  | runtimeError (msg : String) (cause : Option PyError)
  | playwrightError (stage : String)
deriving DecidableEq

deriving instance DecidableEq for Except

/-- Fallback of `default_browsers_path`, lines 66-72: the platform-specific default. -/
def platform_default (w : World) : String :=
  if w.platform = "win32" then
    joinPath
      (match w.env "LOCALAPPDATA" with
       | some s => s
       | none => joinPath w.home "AppData/Local")
      "ms-playwright"
  else if w.platform = "darwin" then
    joinPath w.home "Library/Caches/ms-playwright"
  else
    joinPath w.home ".cache/ms-playwright"

/-- Embedding of `default_browsers_path`, lines 61-72. Python's `if env_path:` is falsy
both when the variable is absent and when it is the empty string. -/
def default_browsers_path (w : World) : String :=
  match w.env "PLAYWRIGHT_BROWSERS_PATH" with
  | some s => if s = "" then platform_default w else s
  | none => platform_default w

/-- Embedding of `chromium_installed`, lines 75-79. -/
def chromium_installed (w : World) : Bool :=
  let browsers_dir := default_browsers_path w
  if w.fsExists browsers_dir = false then false
  else w.hasChromiumGlob browsers_dir

def chromiumMissingMsg : String :=
  "Chromium browser binaries are missing. Run `uvx playwright install chromium` and try again."

def cliMissingMsg : String :=
  "Playwright CLI not found. Install dependencies or set PLAYWRIGHT_BROWSERS_PATH."

def installingMsg : String :=
  "Chromium runtime not found; installing via `playwright install chromium`..."

def installFailedMsg : String :=
  "Automatic Chromium install failed. Run `uvx playwright install chromium` manually."

def installCmd : List String := ["playwright", "install", "chromium"]

/-- Embedding of `ensure_chromium_installed`, lines 82-103. Here `subprocess.run(..., check=True)`
raises `CalledProcessError` exactly when the exit status is non-zero; the
handler re-raises a `RuntimeError` with the `CalledProcessError` as cause. -/
def ensure_chromium_installed (w : World) (auto_install : Bool) :
    List Event × Except Err Unit :=
  if chromium_installed w = true then ([], Except.ok ())
  else if auto_install = false then
    ([], Except.error (Err.runtimeError chromiumMissingMsg none))
  else if w.playwrightOnPath = false then
    ([], Except.error (Err.runtimeError cliMissingMsg none))
  else if w.installExit = 0 then
    ([Event.stderrLine installingMsg, Event.runInstall installCmd], Except.ok ())
  else
    ([Event.stderrLine installingMsg, Event.runInstall installCmd],
     Except.error (Err.runtimeError installFailedMsg
       (some (PyError.calledProcessError w.installExit installCmd))))

/-- Embedding of `capture_screenshot`, lines 106-120. The page is created, navigated with
`wait_until="networkidle"`, optionally delayed, captured, and closed; an
exception from `goto` or `screenshot` propagates immediately, so the trailing
`page.close()` only runs when both succeed. -/
def capture_screenshot (w : World) (html_path output_path : String)
    (width height : Int) (delay : ℚ) (full_page : Bool) :
    List Event × Except Err Unit :=
  let ev0 : List Event :=
    [Event.newPage width height, Event.gotoPage (as_uri html_path) "networkidle"]
  if w.gotoOk = false then (ev0, Except.error (Err.playwrightError "goto"))
  else
    let ev1 := ev0 ++ (if 0 < delay then [Event.waitTimeout (pyInt (delay * 1000))] else [])
    let ev2 := ev1 ++ [Event.screenshot output_path full_page]
    if w.screenshotOk = false then (ev2, Except.error (Err.playwrightError "screenshot"))
    else (ev2 ++ [Event.pageClose], Except.ok ())

/-- Line 131: the output path is the resolved `--output` when given, else the
resolved input with its suffix replaced by `.png`. -/
def resolved_output (w : World) (args : Args) : String :=
  match args.output with
  | some o => w.resolve o
  | none => with_suffix (w.resolve args.html_path) ".png"

/-- Embedding of `main`, lines 123-152. The `with sync_playwright()` block launches the
browser and the `try/finally` guarantees `browser.close()` on both the
success and the exception path out of `capture_screenshot`. -/
def main (w : World) (args : Args) : List Event × Except Err Int :=
  let html_path := w.resolve args.html_path
  if w.fsExists html_path = false then
    ([Event.stderrLine ("Error: HTML file not found: " ++ html_path)], Except.ok 1)
  else
    let output_path := resolved_output w args
    let ev0 : List Event := [Event.mkdirParents (pathParent output_path)]
    let inst := ensure_chromium_installed w (!args.no_auto_install)
    match inst.2 with
    | Except.error e => (ev0 ++ inst.1, Except.error e)
    | Except.ok _ =>
      let cap := capture_screenshot w html_path output_path
        args.width args.height args.delay (!args.no_full_page)
      match cap.2 with
      | Except.error e =>
        (ev0 ++ inst.1 ++ [Event.launchBrowser] ++ cap.1 ++ [Event.browserClose],
         Except.error e)
      | Except.ok _ =>
        (ev0 ++ inst.1 ++ [Event.launchBrowser] ++ cap.1 ++
           [Event.browserClose,
            Event.stdoutLine ("Saved screenshot to " ++ output_path)],
         Except.ok 0)

/-- Whether `pat` starts the list `l`. -/
def startsWithChars : List Char → List Char → Bool
  | [], _ => true
  | _ :: _, [] => false
  | p :: ps, x :: xs => p = x && startsWithChars ps xs

/-- Whether `pat` occurs somewhere in `l`. -/
def occursInChars (pat : List Char) : List Char → Bool
  | [] => startsWithChars pat []
  | x :: xs => startsWithChars pat (x :: xs) || occursInChars pat xs

/-- Whether `pat` occurs as a substring of `s`. -/
def strContains (s pat : String) : Bool := occursInChars pat.data s.data

/-- Events that involve the browser (launching or driving it). -/
def isBrowserUseEvent : Event → Bool
  | Event.launchBrowser => true
  | Event.newPage _ _ => true
  | Event.gotoPage _ _ => true
  | Event.waitTimeout _ => true
  | Event.screenshot _ _ => true
  | Event.pageClose => true
  | Event.browserClose => true
  | _ => false

/-- Events that write a file (only the screenshot does). -/
def isScreenshotEvent : Event → Bool
  | Event.screenshot _ _ => true
  | _ => false

/-- Events that create directories. -/
def isMkdirEvent : Event → Bool
  | Event.mkdirParents _ => true
  | _ => false

/-- The run created a page, i.e. entered `capture_screenshot`. -/
def reachesCapture (t : List Event) : Bool :=
  t.any fun e =>
    match e with
    | Event.newPage _ _ => true
    | _ => false

/-- The base of the Windows default cache path: `LOCALAPPDATA` when present in
the environment, else `home / "AppData/Local"` (line 68). -/
def localAppDataBase (w : World) : String :=
  match w.env "LOCALAPPDATA" with
  | some s => s
  | none => joinPath w.home "AppData/Local"

/-- Copy of `w` with `PLAYWRIGHT_BROWSERS_PATH` removed from the environment. -/
def withUnsetBrowsersPath (w : World) : World :=
  { w with env := fun k => if k = "PLAYWRIGHT_BROWSERS_PATH" then none else w.env k }

/-- A fully healthy environment: Linux, all files present, Chromium cached,
both Playwright calls succeed. -/
def successWorld : World :=
  { env := fun _ => none
    home := "/home/user"
    platform := "linux"
    resolve := fun s => "/work/" ++ s
    fsExists := fun _ => true
    hasChromiumGlob := fun _ => true
    playwrightOnPath := true
    installExit := 0
    gotoOk := true
    screenshotOk := true }

section Lemmas

lemma asString_append (a b : List Char) :
    (a ++ b).asString = a.asString ++ b.asString := rfl

lemma asString_data (s : String) : s.data.asString = s := rfl

lemma data_asString (l : List Char) : l.asString.data = l := rfl

lemma dirPart_append_pathName (p : String) : dirPart p ++ pathName p = p := by
  unfold dirPart pathName
  cases h : lastIdxOf '/' p.data with
  | none => simp
  | some i =>
    show (p.data.take (i + 1)).asString ++ (p.data.drop (i + 1)).asString = p
    rw [← asString_append, List.take_append_drop]
    exact asString_data p

lemma ensure_events_cases (w : World) (a : Bool) :
    (ensure_chromium_installed w a).1 = [] ∨
    (ensure_chromium_installed w a).1 =
      [Event.stderrLine installingMsg, Event.runInstall installCmd] := by
  unfold ensure_chromium_installed
  split_ifs <;> simp

lemma capture_ok_pageClose (w : World) (hp op : String) (wd ht : Int) (d : ℚ)
    (fp : Bool) (h : (capture_screenshot w hp op wd ht d fp).2 = Except.ok ()) :
    Event.pageClose ∈ (capture_screenshot w hp op wd ht d fp).1 := by
  unfold capture_screenshot at *
  split_ifs at * <;> simp_all

lemma joinPath_ne_empty (a b : String) (hb : b ≠ "") : joinPath a b ≠ "" := by
  unfold joinPath
  split_ifs with h
  · exact hb
  · intro hcontra
    have := congrArg String.data hcontra
    simp [String.data_append] at this

lemma platform_default_ne_empty (w : World) : platform_default w ≠ "" := by
  unfold platform_default
  split_ifs <;> exact joinPath_ne_empty _ _ (by decide)

lemma main_head_mkdir (w : World) (args : Args)
    (hin : w.fsExists (w.resolve args.html_path) = true) :
    (main w args).1.head? =
      some (Event.mkdirParents (pathParent (resolved_output w args))) := by
  cases hI : (ensure_chromium_installed w (!args.no_auto_install)).2 with
  | error e => simp [main, hin, hI]
  | ok u =>
    cases hC : (capture_screenshot w (w.resolve args.html_path)
        (resolved_output w args) args.width args.height args.delay
        (!args.no_full_page)).2 with
    | error e => simp [main, hin, hI, hC]
    | ok v => simp [main, hin, hI, hC]

lemma string_eq_of_data (a b : String) (h : a.data = b.data) : a = b := by
  cases a
  cases b
  exact congrArg String.mk h

lemma mem_screenshot_capture (w : World) (hp op : String) (wd ht : Int) (d : ℚ)
    (f : Bool) (p : String) (fp : Bool)
    (h : Event.screenshot p fp ∈ (capture_screenshot w hp op wd ht d f).1) :
    p = op ∧ fp = f := by
  unfold capture_screenshot at h
  split_ifs at h <;> simp_all

lemma capture_ok_screenshot (w : World) (hp op : String) (wd ht : Int) (d : ℚ)
    (f : Bool) (h : (capture_screenshot w hp op wd ht d f).2 = Except.ok ()) :
    Event.screenshot op f ∈ (capture_screenshot w hp op wd ht d f).1 := by
  unfold capture_screenshot at *
  split_ifs at * <;> simp_all

lemma mem_screenshot_main (w : World) (args : Args) (p : String) (fp : Bool)
    (h : Event.screenshot p fp ∈ (main w args).1) :
    p = resolved_output w args ∧ fp = !args.no_full_page := by
  cases hfs : w.fsExists (w.resolve args.html_path) with
  | false => simp [main, hfs] at h
  | true =>
    cases hI : (ensure_chromium_installed w (!args.no_auto_install)).2 with
    | error e =>
      rcases ensure_events_cases w (!args.no_auto_install) with he | he <;>
        simp [main, hfs, hI, he] at h
    | ok u =>
      cases hC : (capture_screenshot w (w.resolve args.html_path)
          (resolved_output w args) args.width args.height args.delay
          (!args.no_full_page)).2 with
      | error e =>
        rcases ensure_events_cases w (!args.no_auto_install) with he | he <;>
          · simp [main, hfs, hI, hC, he] at h
            exact mem_screenshot_capture w _ _ _ _ _ _ p fp h
      | ok v =>
        rcases ensure_events_cases w (!args.no_auto_install) with he | he <;>
          · simp [main, hfs, hI, hC, he] at h
            exact mem_screenshot_capture w _ _ _ _ _ _ p fp h

end Lemmas

section Claims

/-- C9: if `PLAYWRIGHT_BROWSERS_PATH` is set to the empty string,
`default_browsers_path` treats it as unset: it returns the platform-specific
default cache directory (and agrees with the run where the variable is
absent), rather than returning an empty path. -/
theorem C9_empty_env_falls_back (w : World)
    (h : w.env "PLAYWRIGHT_BROWSERS_PATH" = some "") :
    default_browsers_path w = platform_default w ∧
    default_browsers_path w = default_browsers_path (withUnsetBrowsersPath w) ∧
    default_browsers_path w ≠ "" := by
  have h1 : default_browsers_path w = platform_default w := by
    simp [default_browsers_path, h]
  refine ⟨h1, ?_, ?_⟩
  · simp [default_browsers_path, h, withUnsetBrowsersPath, platform_default]
  · rw [h1]
    exact platform_default_ne_empty w

/-- A Linux world whose environment carries `PLAYWRIGHT_BROWSERS_PATH=""`. -/
def wEmptyEnv : World :=
  { successWorld with
    env := fun k => if k = "PLAYWRIGHT_BROWSERS_PATH" then some "" else none
    home := "/h" }

theorem C9_witness : default_browsers_path wEmptyEnv = "/h/.cache/ms-playwright" := by
  have h := (C9_empty_env_falls_back wEmptyEnv (by decide)).1
  rw [h]
  decide

/-- C6 counterexample: with `PLAYWRIGHT_BROWSERS_PATH` set (to the empty
string), `default_browsers_path` does not return the path given by the
variable — it returns the platform default instead, so the claim's
unqualified "when it is set" case fails. -/
theorem C6_counterexample :
    wEmptyEnv.env "PLAYWRIGHT_BROWSERS_PATH" = some "" ∧
    default_browsers_path wEmptyEnv = "/h/.cache/ms-playwright" ∧
    default_browsers_path wEmptyEnv ≠ "" := by decide

/-- C6 (amended): `default_browsers_path` returns the value of
`PLAYWRIGHT_BROWSERS_PATH` when it is set to a non-empty string; otherwise it
returns exactly one platform-specific default: `<LOCALAPPDATA>/ms-playwright`
on Windows (with `<home>/AppData/Local` as base when `LOCALAPPDATA` is
absent), `<home>/Library/Caches/ms-playwright` on macOS, and
`<home>/.cache/ms-playwright` on every other platform. -/
theorem C6_amended_browsers_path (w : World) :
    (∀ s, w.env "PLAYWRIGHT_BROWSERS_PATH" = some s → s ≠ "" →
      default_browsers_path w = s) ∧
    ((w.env "PLAYWRIGHT_BROWSERS_PATH" = none ∨
      w.env "PLAYWRIGHT_BROWSERS_PATH" = some "") →
      (w.platform = "win32" →
        default_browsers_path w = joinPath (localAppDataBase w) "ms-playwright") ∧
      (w.platform = "darwin" →
        default_browsers_path w = joinPath w.home "Library/Caches/ms-playwright") ∧
      (w.platform ≠ "win32" → w.platform ≠ "darwin" →
        default_browsers_path w = joinPath w.home ".cache/ms-playwright")) := by
  constructor
  · intro s hs hne
    simp [default_browsers_path, hs, hne]
  · intro henv
    have hdef : default_browsers_path w = platform_default w := by
      rcases henv with h | h <;> simp [default_browsers_path, h]
    refine ⟨?_, ?_, ?_⟩
    · intro hwin
      rw [hdef]
      simp [platform_default, hwin, localAppDataBase]
    · intro hmac
      rw [hdef]
      simp [platform_default, hmac]
    · intro hw hm
      rw [hdef]
      simp [platform_default, hw, hm]

/-- A Linux world with the browsers path pointed at a custom directory. -/
def wCustomEnv : World :=
  { successWorld with
    env := fun k => if k = "PLAYWRIGHT_BROWSERS_PATH" then some "/custom" else none }

theorem C6_witness : default_browsers_path wCustomEnv = "/custom" :=
  (C6_amended_browsers_path wCustomEnv).1 "/custom" rfl (by decide)

/-- C8: when Chromium is absent, auto-install is permitted, the playwright
CLI is on the PATH and the `playwright install chromium` subprocess exits
non-zero, `ensure_chromium_installed` raises a `RuntimeError` that wraps the
underlying `CalledProcessError` as its cause and whose message carries the
remediation guidance to run `uvx playwright install chromium` manually. -/
theorem C8_install_failure_wraps (w : World) (auto_install : Bool)
    (hmiss : chromium_installed w = false) (hauto : auto_install = true)
    (hcli : w.playwrightOnPath = true) (hexit : w.installExit ≠ 0) :
    (ensure_chromium_installed w auto_install).2 =
      Except.error (Err.runtimeError installFailedMsg
        (some (PyError.calledProcessError w.installExit installCmd))) ∧
    (ensure_chromium_installed w auto_install).1 =
      [Event.stderrLine installingMsg, Event.runInstall installCmd] ∧
    strContains installFailedMsg "uvx playwright install chromium" = true := by
  refine ⟨?_, ?_, by decide⟩ <;>
    simp [ensure_chromium_installed, hmiss, hauto, hcli, hexit]

/-- A Linux world with no Chromium cache and a failing installer. -/
def wInstallFail : World :=
  { successWorld with
    fsExists := fun _ => false
    installExit := 1 }

theorem C8_witness :
    (ensure_chromium_installed wInstallFail true).2 =
      Except.error (Err.runtimeError installFailedMsg
        (some (PyError.calledProcessError 1 installCmd))) := by
  have h := (C8_install_failure_wraps wInstallFail true (by decide) rfl rfl
    (by decide)).1
  simpa using h

/-- C5: in every run that reaches the screenshot stage (navigation
succeeded), a strictly positive delay inserts a pause of exactly
`int(delay * 1000)` milliseconds strictly between the network-idle
navigation and the screenshot, and a zero delay captures with no pause. -/
theorem C5_delay_between_goto_and_screenshot (w : World) (hp op : String)
    (width height : Int) (delay : ℚ) (fp : Bool) (hgoto : w.gotoOk = true) :
    (0 < delay →
      (capture_screenshot w hp op width height delay fp).1 =
        [Event.newPage width height, Event.gotoPage (as_uri hp) "networkidle",
         Event.waitTimeout (pyInt (delay * 1000)), Event.screenshot op fp] ++
        (if w.screenshotOk = true then [Event.pageClose] else [])) ∧
    (delay = 0 →
      (capture_screenshot w hp op width height delay fp).1 =
        [Event.newPage width height, Event.gotoPage (as_uri hp) "networkidle",
         Event.screenshot op fp] ++
        (if w.screenshotOk = true then [Event.pageClose] else [])) := by
  constructor
  · intro hd
    cases hs : w.screenshotOk <;>
      simp [capture_screenshot, hgoto, hs, if_pos hd]
  · intro hd
    subst hd
    cases hs : w.screenshotOk <;>
      simp [capture_screenshot, hgoto, hs]

theorem C5_witness :
    (capture_screenshot successWorld "/a/s.html" "/a/s.png" 1400 900 2 true).1 =
      [Event.newPage 1400 900, Event.gotoPage "file:///a/s.html" "networkidle",
       Event.waitTimeout 2000, Event.screenshot "/a/s.png" true,
       Event.pageClose] := by
  have h := (C5_delay_between_goto_and_screenshot successWorld "/a/s.html"
    "/a/s.png" 1400 900 2 true rfl).1 (by decide)
  rw [h]
  have h2 : pyInt (2 * 1000) = 2000 := by norm_num [pyInt]
  rw [h2]
  decide

/-- C3: when the resolved input path does not exist, `main` prints the error
to standard error, returns exit code 1, and its effect trace contains no
browser activity, no file write (screenshot), and no directory creation. -/
theorem C3_missing_input (w : World) (args : Args)
    (h : w.fsExists (w.resolve args.html_path) = false) :
    (main w args).2 = Except.ok 1 ∧
    (main w args).1 =
      [Event.stderrLine ("Error: HTML file not found: " ++ w.resolve args.html_path)] ∧
    (∀ e ∈ (main w args).1, isBrowserUseEvent e = false) ∧
    (∀ e ∈ (main w args).1, isScreenshotEvent e = false) ∧
    (∀ e ∈ (main w args).1, isMkdirEvent e = false) := by
  refine ⟨?_, ?_, ?_, ?_, ?_⟩ <;>
    simp [main, h, isBrowserUseEvent, isScreenshotEvent, isMkdirEvent]

/-- A world in which no path exists at all. -/
def wNoFiles : World := { successWorld with fsExists := fun _ => false }

theorem C3_witness :
    (main wNoFiles { html_path := "missing.html" }).2 = Except.ok 1 ∧
    (main wNoFiles { html_path := "missing.html" }).1 =
      [Event.stderrLine "Error: HTML file not found: /work/missing.html"] := by
  have h := C3_missing_input wNoFiles { html_path := "missing.html" } (by decide)
  exact ⟨h.1, (h.2.1).trans (by decide)⟩

/-- C4: with `--no-auto-install` and no Chromium runtime present (and an
existing input file, so the run reaches the runtime check), `main` propagates
the `RuntimeError` whose message instructs running
`uvx playwright install chromium` manually, and the effect trace contains no
browser activity at all — in particular no launch. -/
theorem C4_no_auto_install_fails (w : World) (args : Args)
    (hin : w.fsExists (w.resolve args.html_path) = true)
    (hflag : args.no_auto_install = true)
    (hmiss : chromium_installed w = false) :
    (main w args).2 = Except.error (Err.runtimeError chromiumMissingMsg none) ∧
    strContains chromiumMissingMsg "uvx playwright install chromium" = true ∧
    (∀ e ∈ (main w args).1, isBrowserUseEvent e = false) := by
  have hens : ensure_chromium_installed w (!args.no_auto_install) =
      ([], Except.error (Err.runtimeError chromiumMissingMsg none)) := by
    simp [ensure_chromium_installed, hmiss, hflag]
  refine ⟨?_, by decide, ?_⟩ <;>
    simp [main, hin, hens, isBrowserUseEvent]

/-- A world whose filesystem has only the input file (so the Chromium cache
directory is absent) and no playwright CLI on the PATH. -/
def wOnlyInput : World :=
  { successWorld with
    fsExists := fun p => p == "/work/in.html"
    playwrightOnPath := false }

theorem C4_witness :
    (main wOnlyInput { html_path := "in.html", no_auto_install := true }).2 =
      Except.error (Err.runtimeError chromiumMissingMsg none) :=
  (C4_no_auto_install_fails wOnlyInput
    { html_path := "in.html", no_auto_install := true }
    (by decide) rfl (by decide)).1

/-- C10: whenever the input file exists, the very first effect of `main` is
the creation of the output path's parent directories — it precedes the
browser-runtime check, the install attempt and all browser work, and it is in
the trace even when the run subsequently fails. -/
theorem C10_mkdir_precedes_runtime_check (w : World) (args : Args)
    (hin : w.fsExists (w.resolve args.html_path) = true) :
    (main w args).1.head? =
      some (Event.mkdirParents (pathParent (resolved_output w args))) ∧
    (∀ e, (main w args).2 = Except.error e →
      Event.mkdirParents (pathParent (resolved_output w args)) ∈ (main w args).1) := by
  have hshape := main_head_mkdir w args hin
  refine ⟨hshape, fun e _ => ?_⟩
  have h1 : (main w args).1 ≠ [] := by
    intro hnil
    rw [hnil] at hshape
    simp at hshape
  obtain ⟨a, t, hat⟩ := List.exists_cons_of_ne_nil h1
  rw [hat] at hshape ⊢
  simp only [List.head?_cons, Option.some.injEq] at hshape
  rw [← hshape]
  exact List.mem_cons_self a t

theorem C10_witness :
    (main wOnlyInput { html_path := "in.html" }).1.head? =
      some (Event.mkdirParents "/work") ∧
    (main wOnlyInput { html_path := "in.html" }).2 =
      Except.error (Err.runtimeError cliMissingMsg none) := by
  have h := (C10_mkdir_precedes_runtime_check wOnlyInput
    { html_path := "in.html" } (by decide)).1
  refine ⟨h.trans (by decide), by decide⟩

/-- The default invocation on `slide.html`. -/
def argsSlide : Args := { html_path := "slide.html" }

/-- A healthy world in which navigation (`page.goto`) raises. -/
def wGotoFail : World := { successWorld with gotoOk := false }

/-- C2 counterexample: a run that reaches the capture stage and fails during
navigation propagates the failure with `browser.close()` in its trace but
without any `page.close()`: the explicit page close of `capture_screenshot`
only runs on the success path, so the claim that both the page and the
browser are closed on every such exit path fails here. -/
theorem C2_counterexample :
    reachesCapture (main wGotoFail argsSlide).1 = true ∧
    (main wGotoFail argsSlide).2 = Except.error (Err.playwrightError "goto") ∧
    Event.browserClose ∈ (main wGotoFail argsSlide).1 ∧
    Event.pageClose ∉ (main wGotoFail argsSlide).1 := by decide

/-- C2 (amended): on every exit path of a run that reaches the capture stage
the browser is closed (the `try/finally` guarantee) before the failure
propagates; the page is additionally closed by `page.close()` on the success
path only. -/
theorem C2_amended_browser_always_closed (w : World) (args : Args)
    (h : reachesCapture (main w args).1 = true) :
    Event.browserClose ∈ (main w args).1 ∧
    ((main w args).2 = Except.ok 0 → Event.pageClose ∈ (main w args).1) := by
  cases hfs : w.fsExists (w.resolve args.html_path) with
  | false =>
    exfalso
    simp [main, hfs, reachesCapture] at h
  | true =>
    cases hI : (ensure_chromium_installed w (!args.no_auto_install)).2 with
    | error e =>
      exfalso
      rcases ensure_events_cases w (!args.no_auto_install) with he | he <;>
        simp [main, hfs, hI, he, reachesCapture] at h
    | ok u =>
      cases hC : (capture_screenshot w (w.resolve args.html_path)
          (resolved_output w args) args.width args.height args.delay
          (!args.no_full_page)).2 with
      | error e =>
        constructor
        · simp [main, hfs, hI, hC]
        · intro hok
          simp [main, hfs, hI, hC] at hok
      | ok v =>
        have hp := capture_ok_pageClose w (w.resolve args.html_path)
          (resolved_output w args) args.width args.height args.delay
          (!args.no_full_page) hC
        constructor
        · simp [main, hfs, hI, hC]
        · intro _
          simp [main, hfs, hI, hC, hp]

theorem C2_witness :
    Event.pageClose ∈ (main successWorld argsSlide).1 := by
  have h := C2_amended_browser_always_closed successWorld argsSlide (by decide)
  exact h.2 (by decide)

/-- C7: with an explicit `--output` and an existing input, the first effect
of `main` creates the missing parent directories of the resolved output path,
every screenshot written by the run is at exactly that resolved path, and a
successful run does write the screenshot there. -/
theorem C7_explicit_output (w : World) (args : Args) (o : String)
    (hout : args.output = some o)
    (hin : w.fsExists (w.resolve args.html_path) = true) :
    (main w args).1.head? =
      some (Event.mkdirParents (pathParent (w.resolve o))) ∧
    (∀ p fp, Event.screenshot p fp ∈ (main w args).1 → p = w.resolve o) ∧
    ((main w args).2 = Except.ok 0 →
      Event.screenshot (w.resolve o) (!args.no_full_page) ∈ (main w args).1) := by
  have hro : resolved_output w args = w.resolve o := by
    simp [resolved_output, hout]
  refine ⟨?_, ?_, ?_⟩
  · have h := main_head_mkdir w args hin
    rw [hro] at h
    exact h
  · intro p fp hmem
    have h := mem_screenshot_main w args p fp hmem
    rw [hro] at h
    exact h.1
  · intro hok
    cases hI : (ensure_chromium_installed w (!args.no_auto_install)).2 with
    | error e => simp [main, hin, hI] at hok
    | ok u =>
      cases hC : (capture_screenshot w (w.resolve args.html_path)
          (resolved_output w args) args.width args.height args.delay
          (!args.no_full_page)).2 with
      | error e => simp [main, hin, hI, hC] at hok
      | ok v =>
        have hs := capture_ok_screenshot w (w.resolve args.html_path)
          (resolved_output w args) args.width args.height args.delay
          (!args.no_full_page) hC
        rw [← hro]
        simp [main, hin, hI, hC, hs]

/-- The invocation `html_snapshot slide.html -o shots/custom.png`. -/
def argsCustomOut : Args := { html_path := "slide.html", output := some "shots/custom.png" }

theorem C7_witness :
    Event.screenshot "/work/shots/custom.png" true ∈
      (main successWorld argsCustomOut).1 := by
  have h := (C7_explicit_output successWorld argsCustomOut "shots/custom.png"
    rfl (by decide)).2.2 (by decide)
  exact h

/-- C1 counterexample: the default invocation on `slide.html` resolves the
output to `/work/slide.png` — `Path.with_suffix` replaces the final
extension — not to `/work/slide.html.png` as the claim's "`.png` extension
appended" would require, and the run writes the screenshot there. -/
theorem C1_counterexample :
    resolved_output successWorld argsSlide = "/work/slide.png" ∧
    resolved_output successWorld argsSlide ≠
      successWorld.resolve argsSlide.html_path ++ ".png" ∧
    Event.screenshot "/work/slide.png" true ∈ (main successWorld argsSlide).1 ∧
    (main successWorld argsSlide).2 = Except.ok 0 := by decide

/-- C1 (amended): when `--output` is not given, the resolved output path is
the resolved input path with its final extension replaced by `.png`
(`Path.with_suffix` semantics): when the input's filename has no extension
the `.png` is appended to the whole path, and when it has one (a last dot
that is neither the first nor the last character of the name) everything
from that dot is replaced by `.png`. -/
theorem C1_amended_default_output (w : World) (args : Args)
    (h : args.output = none) :
    (pySuffix (pathName (w.resolve args.html_path)) = "" →
      resolved_output w args = w.resolve args.html_path ++ ".png") ∧
    (∀ i, lastIdxOf '.' (pathName (w.resolve args.html_path)).data = some i →
      0 < i → i + 1 < (pathName (w.resolve args.html_path)).data.length →
      resolved_output w args =
        dirPart (w.resolve args.html_path) ++
          ((pathName (w.resolve args.html_path)).data.take i).asString ++ ".png") := by
  have hro : resolved_output w args = with_suffix (w.resolve args.html_path) ".png" := by
    simp [resolved_output, h]
  have hd := congrArg String.data (dirPart_append_pathName (w.resolve args.html_path))
  rw [String.data_append] at hd
  constructor
  · intro hsuf
    rw [hro]
    cases hidx : lastIdxOf '.' (pathName (w.resolve args.html_path)).data with
    | none =>
      simp only [with_suffix, hidx]
      apply string_eq_of_data
      simp [String.data_append, data_asString, ← List.append_assoc, hd]
    | some i =>
      unfold pySuffix at hsuf
      simp only [hidx] at hsuf
      by_cases hcond : 0 < i ∧ i + 1 < (pathName (w.resolve args.html_path)).data.length
      · exfalso
        rw [if_pos hcond] at hsuf
        have hnil := congrArg String.data hsuf
        rw [data_asString] at hnil
        have hlen := congrArg List.length hnil
        rw [List.length_drop] at hlen
        simp only [List.length_nil] at hlen
        omega
      · simp only [with_suffix, hidx]
        rw [if_neg hcond]
        apply string_eq_of_data
        simp [String.data_append, data_asString, ← List.append_assoc, hd]
  · intro i hidx hi0 hilen
    rw [hro]
    simp only [with_suffix, hidx]
    rw [if_pos ⟨hi0, hilen⟩]
    apply string_eq_of_data
    simp [String.data_append, data_asString]

theorem C1_witness :
    resolved_output successWorld { html_path := "notes" } = "/work/notes.png" := by
  have h := (C1_amended_default_output successWorld { html_path := "notes" }
    rfl).1 (by decide)
  exact h.trans (by decide)

end Claims

end HtmlSnapshot
